import Mathlib

/-!
# Verification of `tlstester.py`

A shallow embedding of the core of `tlstester.py`: the PKI generator
(class `Certs`), the port-allocating server startup (class `Server`), the
TLS context factory (`Server.ssl_context`) and the MAPI framing handler
(`MapiHandler.send_message` / `recv_message` / `handle`), together with
proofs of the specification claims about them.

Modelling conventions:
* Byte strings are `List Nat` (each element a byte value).
* RSA keys and PEM blobs are abstract: a fresh key generated for subject
  `S` is identified by `S` itself (each subject is generated exactly once
  per run), and the PEM encoding of a key or certificate is an injective
  `Token` carrying the modelled object.
* `datetime.utcnow()` is modelled by a clock function `Nat → Int` giving
  the instant returned by the i-th call in the run; `timedelta(days)` adds
  `days * 86400` seconds.
* Python dicts keyed by `x509.Name` are modelled as first-match
  association lists (an insert prepends); the `_files` dict keeps
  insertion order, and the `assert name not in self._files` in
  `insert_file` is modelled by the `dup` flag.

The file is organised as definitions first (the embedding of the source,
plus the explicitly evaluated generator states), then the theorems.
-/

namespace TlsTester

/-! ## Data model: distinguished names, extensions, certificates -/

/-- A distinguished name as built by `gen_ca`/`gen_server`:
an (organization, common name) pair. -/
structure DN where
  org : String
  cn : String
  deriving DecidableEq

/-- The X.509 extensions used by `tlstester.py`. -/
inductive Extension where
  | basicConstraints (ca : Bool) (pathLength : Nat)
  | subjectAltName (dnsNames : List String)
  deriving DecidableEq

/-- An X.509 certificate as assembled by `Certs.gen_key`:
subject, issuer, validity window, extensions, and the owner of the key
that signed it (`none` models a failed `self._keys[parent_name]` lookup,
which cannot happen in a generated run). -/
structure Cert where
  subject : DN
  issuer : DN
  notBefore : Int
  notAfter : Int
  criticalExtensions : List Extension
  noncriticalExtensions : List Extension
  signedWithKeyOf : Option DN
  deriving DecidableEq

/-- One PEM block inside a published artifact: either the PEM of the
private key generated for `owner`, or the PEM of a certificate.
PEM encoding is injective, so artifact bytes are modelled as `List Token`
and byte concatenation as list append. -/
inductive Token where
  | keyPem (owner : DN)
  | certPem (cert : Cert)
  deriving DecidableEq

/-- Seconds per day: `timedelta(n)` is `n` days. -/
def SECONDS_PER_DAY : Int := 86400

/-! ## The `Certs` class -/

/-- Ordered lookup in the `_files` association list. -/
def lookupFile : List (String × List Token) → String → Option (List Token)
  | [], _ => none
  | (k, v) :: rest, n => if k = n then some v else lookupFile rest n

/-- Lookup in a dict keyed by `x509.Name`, modelled as a first-match
association list (an insert prepends, so the newest binding wins, as in a
dict update). -/
def dnLookup {α : Type} : List (DN × α) → DN → Option α
  | [], _ => none
  | (k, v) :: rest, d => if k = d then some v else dnLookup rest d

/-- State of a `Certs` instance: the artifact store `files` (insertion
ordered), the `dup` flag recording a violated `assert name not in
self._files`, the three dicts keyed by DN, and the clock with the number
of `utcnow()` calls made so far. -/
structure Certs where
  hostname : String
  files : List (String × List Token)
  dup : Bool
  keys : List (DN × DN)
  certs : List (DN × Cert)
  parents : List (DN × Option DN)
  clock : Nat → Int
  tick : Nat

/-- `Certs.get_file`. -/
def Certs.get_file (self : Certs) (name : String) : Option (List Token) :=
  lookupFile self.files name

/-- `Certs.insert_file`: asserts the name is fresh (modelled by `dup`),
then stores the content. -/
def Certs.insert_file (self : Certs) (name : String) (content : List Token) : Certs :=
  if (lookupFile self.files name).isSome then
    { self with dup := true }
  else
    { self with files := self.files ++ [(name, content)] }

/-- The `while n:` loop at the end of `Certs.gen_key` that builds
`pem_crt` by walking `_parents` from the subject to the root.  The Python
loop is unbounded; `fuel` is an upper bound on the walk length, and every
use below supplies fuel exceeding the number of generated subjects, which
bounds any acyclic walk. -/
def chainTokens (certs : List (DN × Cert)) (parents : List (DN × Option DN)) :
    Nat → Option DN → List Token
  | 0, _ => []
  | _ + 1, none => []
  | fuel + 1, some dn =>
    match dnLookup certs dn with
    | none => []
    | some c => Token.certPem c :: chainTokens certs parents fuel ((dnLookup parents dn).getD none)

/-- `Certs.gen_key`: generate a fresh key for `subject_name`, build and
sign the certificate, record key/cert/parent, and publish the `.key`,
`.crt` and (optionally) `.keycrt` artifacts. -/
def Certs.gen_key (self : Certs) (name : String) (subject_name : DN)
    (parent_name : Option DN) (not_before not_after : Int)
    (critical_extensions noncritical_extensions : List Extension)
    (keycrt : Bool) : Certs :=
  let key := subject_name
  let issuer_name := match parent_name with
    | some p => p
    | none => subject_name
  let issuer_key : Option DN := match parent_name with
    | some p => dnLookup self.keys p
    | none => some key
  let now := self.clock self.tick
  let cert : Cert := {
    subject := subject_name
    issuer := issuer_name
    notBefore := now + not_before * SECONDS_PER_DAY
    notAfter := now + not_after * SECONDS_PER_DAY
    criticalExtensions := critical_extensions
    noncriticalExtensions := noncritical_extensions
    signedWithKeyOf := issuer_key }
  let certs' := (subject_name, cert) :: self.certs
  let parents' := (subject_name, parent_name) :: self.parents
  let st : Certs := { self with
    keys := (subject_name, key) :: self.keys
    certs := certs'
    parents := parents'
    tick := self.tick + 1 }
  let st := st.insert_file (name ++ ".key") [Token.keyPem subject_name]
  let pem_crt := chainTokens certs' parents' (self.tick + 2) (some subject_name)
  let st := st.insert_file (name ++ ".crt") pem_crt
  if keycrt then st.insert_file (name ++ ".keycrt") ([Token.keyPem subject_name] ++ pem_crt)
  else st

/-- The DN built by `Certs.gen_ca`. -/
def caDN (name : String) : DN :=
  { org := "Org " ++ name, cn := "The Certificate Authority" }

/-- The DN built by `Certs.gen_server`. -/
def serverDN (hostname name : String) : DN :=
  { org := "Org " ++ name, cn := hostname }

/-- `Certs.gen_ca`: a self-signed CA with a critical
`basicConstraints(ca=True, path_length=1)`. -/
def Certs.gen_ca (self : Certs) (name : String) : Certs × DN :=
  let ca_name := caDN name
  (self.gen_key name ca_name none 0 14 [Extension.basicConstraints true 1] [] false,
   ca_name)

/-- `Certs.gen_server`: a leaf signed by `ca_name` with a non-critical
SAN naming the configured hostname. -/
def Certs.gen_server (self : Certs) (name : String) (ca_name : DN)
    (not_before not_after : Int) (keycrt : Bool) : Certs :=
  self.gen_key name (serverDN self.hostname name) (some ca_name) not_before not_after
    [] [Extension.subjectAltName [self.hostname]] keycrt

/-- `Certs.gen_keys`: the fixed generation schedule of the run. -/
def Certs.gen_keys (self : Certs) : Certs :=
  let p1 := self.gen_ca "ca1"
  let st := p1.1.gen_server "server1" p1.2 0 14 false
  let st := st.gen_server "server1x" p1.2 (-15) (-1) false
  let p2 := st.gen_ca "ca2"
  let st := p2.1.gen_server "server2" p2.2 0 14 false
  let st := st.gen_server "client2" p2.2 0 14 true
  let p3 := st.gen_ca "ca3"
  p3.1.gen_server "server3" p3.2 0 14 false

/-- `Certs.__init__`: empty maps, then `gen_keys`. -/
def initCerts (hostname : String) (clock : Nat → Int) : Certs :=
  Certs.gen_keys {
    hostname := hostname
    files := []
    dup := false
    keys := []
    certs := []
    parents := []
    clock := clock
    tick := 0 }

/-! ## MAPI framing (`MapiHandler.send_message` / `recv_message`) -/

/-- `struct.unpack("<h", head)`: decode two bytes, little endian, as a
signed 16-bit integer. -/
def int16ofLE (b0 b1 : Nat) : Int :=
  let u := b0 + 256 * b1
  if u < 32768 then (u : Int) else (u : Int) - 65536

/-- `struct.pack("<h", v)`: two's-complement little-endian encoding of a
signed 16-bit integer; `none` models the `struct.error` raised when `v`
is out of range. -/
def structPackShortLE (v : Int) : Option (List Nat) :=
  if v < -32768 ∨ 32767 < v then none
  else some [((v % 65536).toNat) % 256, ((v % 65536).toNat) / 256 % 256]

/-- `MapiHandler.send_message`: frame `msg` as a single chunk with header
`2 * len(msg) + 1`; `none` models the `struct.error` escaping when the
header does not fit in a signed 16-bit value. -/
def send_message (msg : List Nat) : Option (List Nat) :=
  match structPackShortLE (2 * (msg.length : Int) + 1) with
  | none => none
  | some head => some (head ++ msg)

/-- Result of one iteration of the `recv_message` loop. -/
inductive StepRes where
  | fail
  | done
  | more (rest : List Nat)
  deriving DecidableEq

/-- One iteration of the `while True:` loop in `MapiHandler.recv_message`:
read a 2-byte header (breaking on EOF), decode it as signed (`"<h"`),
`size = n // 2` (Python floor division), `last = (n & 1) > 0` (modelled
as `n % 2 = 1` with the nonnegative remainder), read the body only when
`size > 0` (breaking when it is truncated), and return on `last`. -/
def recvStep : List Nat → StepRes
  | b0 :: b1 :: rest =>
    let n := int16ofLE b0 b1
    let size := Int.fdiv n 2
    if 0 < size then
      let body := rest.take size.toNat
      if body.length < size.toNat then StepRes.fail
      else if n % 2 = 1 then StepRes.done
      else StepRes.more (rest.drop size.toNat)
    else
      if n % 2 = 1 then StepRes.done
      else StepRes.more rest
  | _ => StepRes.fail

/-- The `while True:` loop of `recv_message`, with fuel.  Each continuing
iteration strictly shrinks the input (`recvStep_more_length`), so any
fuel exceeding the input length makes the fuel bound unreachable
(`recvLoop_congr`). -/
def recvLoop : Nat → List Nat → Bool
  | 0, _ => false
  | fuel + 1, input =>
    match recvStep input with
    | StepRes.fail => false
    | StepRes.done => true
    | StepRes.more rest => recvLoop fuel rest

/-- `MapiHandler.recv_message`: iterate `recvStep` until the loop breaks
(`false`) or a chunk with the last flag set completes a message
(`true`). -/
def recv_message (input : List Nat) : Bool :=
  recvLoop (input.length + 1) input

/-- The byte stream begins with a complete framed message under the
code's chunk arithmetic: a sequence of fully present chunks ending in one
whose last flag is set. -/
inductive MsgComplete : List Nat → Prop where
  | lastChunk (b0 b1 : Nat) (rest : List Nat)
      (hlast : int16ofLE b0 b1 % 2 = 1)
      (hsize : (Int.fdiv (int16ofLE b0 b1) 2).toNat ≤ rest.length) :
      MsgComplete (b0 :: b1 :: rest)
  | moreChunk (b0 b1 : Nat) (rest : List Nat)
      (hlast : ¬ int16ofLE b0 b1 % 2 = 1)
      (hsize : (Int.fdiv (int16ofLE b0 b1) 2).toNat ≤ rest.length)
      (htail : MsgComplete (rest.drop (Int.fdiv (int16ofLE b0 b1) 2).toNat)) :
      MsgComplete (b0 :: b1 :: rest)

/-- Byte values of an ASCII string literal. -/
def strBytes (s : String) : List Nat := s.data.map Char.toNat

/-- `MapiHandler.CHALLENGE`. -/
def CHALLENGE : List Nat :=
  strBytes "s7NzFDHo0UdlE:merovingian:9:RIPEMD160,SHA512,SHA384,SHA256,SHA224,SHA1:LIT:SHA512:"

/-- `MapiHandler.ERRORMESSAGE`. -/
def ERRORMESSAGE : List Nat :=
  strBytes "!Sorry, this is not a real MonetDB instance"

/-- Helper loop for `recvMessageSpec`, with the same fuel discipline as
`recvLoop`. -/
def recvSpecLoop : Nat → List Nat → Bool
  | 0, _ => false
  | fuel + 1, input =>
    match input with
    | b0 :: b1 :: rest =>
      let u := b0 + 256 * b1
      let size := u >>> 1
      if size ≤ rest.length then
        if u % 2 = 1 then true else recvSpecLoop fuel (rest.drop size)
      else false
    | _ => false

/-- The receiver described by claim C4's words (not by the source): the
16-bit little-endian header is treated as an unsigned value `H`, the body
size is `H >>> 1`, the last flag is `H &&& 1`, and exactly `size` body
bytes are read for every chunk. -/
def recvMessageSpec (input : List Nat) : Bool :=
  recvSpecLoop (input.length + 1) input

/-- The frame carrying the challenge: header `2*82 + 1 = 0x00A5`, little
endian, then the 82 challenge bytes. -/
def challengeFrame : List Nat := 165 :: 0 :: CHALLENGE

/-- The frame carrying the error message: header `2*43 + 1 = 0x0057`,
little endian, then the 43 error bytes. -/
def errorFrame : List Nat := 87 :: 0 :: ERRORMESSAGE

/-! ## TLS context factory (`Server.ssl_context`) -/

/-- The `ssl.TLSVersion` enum values used by the factory. -/
inductive TLSVersion where
  | minimumSupported
  | sslv3
  | tlsv1
  | tlsv1_1
  | tlsv1_2
  | tlsv1_3
  | maximumSupported
  deriving DecidableEq

/-- The `IntEnum` value of each `ssl.TLSVersion` member. -/
def TLSVersion.toInt : TLSVersion → Int
  | minimumSupported => -2
  | sslv3 => 768
  | tlsv1 => 769
  | tlsv1_1 => 770
  | tlsv1_2 => 771
  | tlsv1_3 => 772
  | maximumSupported => -1

/-- Python truthiness of a `TLSVersion` (an `IntEnum`): nonzero. -/
def TLSVersion.truthy (v : TLSVersion) : Bool := v.toInt != 0

/-- The `ssl.CERT_NONE` / `ssl.CERT_REQUIRED` verify modes. -/
inductive VerifyMode where
  | certNone
  | certRequired
  deriving DecidableEq

/-- The observable state of an `SSLContext` configured by `ssl_context`. -/
structure SSLCtx where
  minimumVersion : TLSVersion
  maximumVersion : TLSVersion
  verifyMode : VerifyMode
  certChain : Option (List Token)
  caData : Option (List Token)
  deriving DecidableEq

/-- `SSLContext(ssl.PROTOCOL_TLS_SERVER)`: fresh server context with
unrestricted version bounds and no client verification. -/
def newTLSServerContext : SSLCtx := {
  minimumVersion := TLSVersion.minimumSupported
  maximumVersion := TLSVersion.maximumSupported
  verifyMode := VerifyMode.certNone
  certChain := none
  caData := none }

/-- Python `tls_version or TLSVersion.TLSv1_3`. -/
def pyOrTLS (v : Option TLSVersion) (dflt : TLSVersion) : TLSVersion :=
  match v with
  | some w => if w.truthy then w else dflt
  | none => dflt

/-- `Server.ssl_context`: build the server context for `cert_name`.  The
Python parameter default `tls_version=TLSVersion.TLSv1_3` is modelled by
call sites passing `some TLSVersion.tlsv1_3` when the source omits the
argument; `none` models passing Python `None`. -/
def ssl_context (certs : Certs) (cert_name : String) (tls_version : Option TLSVersion)
    (client_cert : Option String) : SSLCtx :=
  let ctx := newTLSServerContext
  let ctx := { ctx with minimumVersion := pyOrTLS tls_version TLSVersion.tlsv1_3 }
  let ctx := match tls_version with
    | some w => if w.truthy then { ctx with maximumVersion := w } else ctx
    | none => ctx
  let ctx := { ctx with certChain :=
    match certs.get_file (cert_name ++ ".key"), certs.get_file (cert_name ++ ".crt") with
    | some k, some c => some (k ++ c)
    | _, _ => none }
  match client_cert with
  | some cc =>
    if !cc.isEmpty then
      { ctx with verifyMode := VerifyMode.certRequired
                 caData := certs.get_file (cc ++ ".crt") }
    else ctx
  | none => ctx

/-! ## Server startup and port allocation (`Server.__init__`) -/

/-- Observable startup events: a bound port being recorded in the port
map, and a listener starting to accept connections. -/
inductive Ev where
  | recorded (name : String) (port : Nat)
  | acceptStart (name : String)
  deriving DecidableEq

/-- The state assembled by `Server.__init__`, plus the event trace. -/
structure ServerSt where
  portmap : List (String × Nat)
  next_port : Nat
  workers : List String
  endpoints : List (String × Option SSLCtx)
  httpPort : Nat
  osCalls : Nat
  trace : List Ev

/-- Binding a socket: requesting port 0 adopts the next OS-assigned port,
any other request binds that exact port. -/
def bindPort (osAssign : Nat → Nat) (st : ServerSt) (requested : Nat) : Nat × ServerSt :=
  (if requested = 0 then osAssign st.osCalls else requested,
   { st with osCalls := if requested = 0 then st.osCalls + 1 else st.osCalls })

/-- `Server.spawn_http`: bind the HTTP listener at the given port. -/
def spawn_http (osAssign : Nat → Nat) (st : ServerSt) (port : Nat) : ServerSt :=
  let p := bindPort osAssign st port
  { p.2 with httpPort := p.1, workers := p.2.workers ++ ["http"] }

/-- `Server.spawn_mapi`: pick the requested port (`next_port`, advancing
it only in sequential mode), bind, record the bound port in the port map
under the endpoint name, and register the accept worker. -/
def spawn_mapi (osAssign : Nat → Nat) (st : ServerSt) (name : String)
    (ctx : Option SSLCtx) : ServerSt :=
  let port := st.next_port
  let st := { st with next_port := if st.next_port > 0 then st.next_port + 1 else st.next_port }
  let p := bindPort osAssign st port
  let bound := p.1
  let st := p.2
  { st with portmap := st.portmap ++ [(name, bound)]
            endpoints := st.endpoints ++ [(name, ctx)]
            trace := st.trace ++ [Ev.recorded name bound]
            workers := st.workers ++ [name] }

/-- `Server.__init__`: spawn the HTTP listener on the base port, then the
seven MAPI listeners in declaration order. -/
def serverInit (certs : Certs) (base_port : Nat) (sequential : Bool)
    (osAssign : Nat → Nat) : ServerSt :=
  let st : ServerSt := {
    portmap := []
    next_port := if sequential then base_port + 1 else 0
    workers := []
    endpoints := []
    httpPort := 0
    osCalls := 0
    trace := [] }
  let st := spawn_http osAssign st base_port
  let st := spawn_mapi osAssign st "plain" none
  let st := spawn_mapi osAssign st "server1"
    (some (ssl_context certs "server1" (some TLSVersion.tlsv1_3) none))
  let st := spawn_mapi osAssign st "server2"
    (some (ssl_context certs "server2" (some TLSVersion.tlsv1_3) none))
  let st := spawn_mapi osAssign st "server3"
    (some (ssl_context certs "server3" (some TLSVersion.tlsv1_3) none))
  let st := spawn_mapi osAssign st "expiredcert"
    (some (ssl_context certs "server1x" (some TLSVersion.tlsv1_3) none))
  let st := spawn_mapi osAssign st "tls12"
    (some (ssl_context certs "server1" (some TLSVersion.tlsv1_2) none))
  spawn_mapi osAssign st "clientauth"
    (some (ssl_context certs "server1" (some TLSVersion.tlsv1_3) (some "ca2")))

/-- `Server.serve_forever` starts every worker accepting only after
`__init__` has completed: the full event trace is the startup trace
followed by one accept-start event per worker. -/
def serveTrace (st : ServerSt) : List Ev :=
  st.trace ++ st.workers.map Ev.acceptStart

/-- Ordered lookup in the endpoint list assembled by `Server.__init__`. -/
def lookupCtx : List (String × Option SSLCtx) → String → Option (Option SSLCtx)
  | [], _ => none
  | (k, v) :: rest, n => if k = n then some v else lookupCtx rest n

/-! ## Per-connection handler (`MapiHandler.handle`) -/

/-- Whether `handle` attempts a TLS handshake: exactly when a context is
configured for the endpoint. -/
def handshakeAttempted (context : Option SSLCtx) : Bool := context.isSome

/-- The challenge/response/error exchange after the handshake phase of
`MapiHandler.handle`: send the framed challenge, then send the framed
error message exactly when `recv_message` reports a complete message.
The result is the list of frames sent on the connection. -/
def exchange (input : List Nat) : List (List Nat) :=
  match send_message CHALLENGE with
  | none => []
  | some c => c :: (if recv_message input then
      (match send_message ERRORMESSAGE with
       | some e => [e]
       | none => []) else [])

/-- `MapiHandler.handle`: wrap the socket when a TLS context is present
(returning immediately when the handshake fails), then run the exchange.
`handshakeOk` models whether `wrap_socket` raised `SSLError`; `input` is
the byte stream received from the peer after the handshake. -/
def handle (context : Option SSLCtx) (handshakeOk : Bool) (input : List Nat) :
    List (List Nat) :=
  match context with
  | some _ => if handshakeOk then exchange input else []
  | none => exchange input

/-! ## Trace observables for claim C8 -/

/-- Whether an event is a port-map record. -/
def isRecordedEv : Ev → Bool
  | Ev.recorded _ _ => true
  | Ev.acceptStart _ => false

/-- Whether an event is a listener starting to accept. -/
def isAcceptEv : Ev → Bool
  | Ev.recorded _ _ => false
  | Ev.acceptStart _ => true

/-- Every port-map record in the full event trace precedes every
accept-start event. -/
def recordedBeforeAccept (st : ServerSt) : Prop :=
  ∀ (i j : Nat) (e1 e2 : Ev), (serveTrace st)[i]? = some e1 → isRecordedEv e1 = true →
    (serveTrace st)[j]? = some e2 → isAcceptEv e2 = true → i < j

/-! ## The generated PKI, evaluated

The run of `gen_keys` is evaluated one `gen_key` at a time: `stateN` is
the `Certs` state after the N-th generation step, for an arbitrary
hostname and clock. -/

def ca1DN : DN := ⟨"Org ca1", "The Certificate Authority"⟩

def ca2DN : DN := ⟨"Org ca2", "The Certificate Authority"⟩

def ca3DN : DN := ⟨"Org ca3", "The Certificate Authority"⟩

def server1DN (H : String) : DN := ⟨"Org server1", H⟩

def server1xDN (H : String) : DN := ⟨"Org server1x", H⟩

def server2DN (H : String) : DN := ⟨"Org server2", H⟩

def client2DN (H : String) : DN := ⟨"Org client2", H⟩

def server3DN (H : String) : DN := ⟨"Org server3", H⟩

def ca1Cert (clock : Nat → Int) : Cert :=
  ⟨ca1DN, ca1DN, clock 0, clock 0 + 1209600,
   [Extension.basicConstraints true 1], [], some ca1DN⟩

def server1Cert (H : String) (clock : Nat → Int) : Cert :=
  ⟨server1DN H, ca1DN, clock 1, clock 1 + 1209600,
   [], [Extension.subjectAltName [H]], some ca1DN⟩

def server1xCert (H : String) (clock : Nat → Int) : Cert :=
  ⟨server1xDN H, ca1DN, clock 2 + -1296000, clock 2 + -86400,
   [], [Extension.subjectAltName [H]], some ca1DN⟩

def ca2Cert (clock : Nat → Int) : Cert :=
  ⟨ca2DN, ca2DN, clock 3, clock 3 + 1209600,
   [Extension.basicConstraints true 1], [], some ca2DN⟩

def server2Cert (H : String) (clock : Nat → Int) : Cert :=
  ⟨server2DN H, ca2DN, clock 4, clock 4 + 1209600,
   [], [Extension.subjectAltName [H]], some ca2DN⟩

def client2Cert (H : String) (clock : Nat → Int) : Cert :=
  ⟨client2DN H, ca2DN, clock 5, clock 5 + 1209600,
   [], [Extension.subjectAltName [H]], some ca2DN⟩

def ca3Cert (clock : Nat → Int) : Cert :=
  ⟨ca3DN, ca3DN, clock 6, clock 6 + 1209600,
   [Extension.basicConstraints true 1], [], some ca3DN⟩

def server3Cert (H : String) (clock : Nat → Int) : Cert :=
  ⟨server3DN H, ca3DN, clock 7, clock 7 + 1209600,
   [], [Extension.subjectAltName [H]], some ca3DN⟩

def state0 (H : String) (clock : Nat → Int) : Certs :=
  ⟨H, [], false, [], [], [], clock, 0⟩

def state1 (H : String) (clock : Nat → Int) : Certs :=
  ⟨H,
   [("ca1.key", [Token.keyPem ca1DN]),
    ("ca1.crt", [Token.certPem (ca1Cert clock)])],
   false,
   [(ca1DN, ca1DN)],
   [(ca1DN, ca1Cert clock)],
   [(ca1DN, none)],
   clock, 1⟩

def state2 (H : String) (clock : Nat → Int) : Certs :=
  ⟨H,
   [("ca1.key", [Token.keyPem ca1DN]),
    ("ca1.crt", [Token.certPem (ca1Cert clock)]),
    ("server1.key", [Token.keyPem (server1DN H)]),
    ("server1.crt", [Token.certPem (server1Cert H clock), Token.certPem (ca1Cert clock)])],
   false,
   [(server1DN H, server1DN H), (ca1DN, ca1DN)],
   [(server1DN H, server1Cert H clock), (ca1DN, ca1Cert clock)],
   [(server1DN H, some ca1DN), (ca1DN, none)],
   clock, 2⟩

def state3 (H : String) (clock : Nat → Int) : Certs :=
  ⟨H,
   [("ca1.key", [Token.keyPem ca1DN]),
    ("ca1.crt", [Token.certPem (ca1Cert clock)]),
    ("server1.key", [Token.keyPem (server1DN H)]),
    ("server1.crt", [Token.certPem (server1Cert H clock), Token.certPem (ca1Cert clock)]),
    ("server1x.key", [Token.keyPem (server1xDN H)]),
    ("server1x.crt", [Token.certPem (server1xCert H clock), Token.certPem (ca1Cert clock)])],
   false,
   [(server1xDN H, server1xDN H), (server1DN H, server1DN H), (ca1DN, ca1DN)],
   [(server1xDN H, server1xCert H clock), (server1DN H, server1Cert H clock),
    (ca1DN, ca1Cert clock)],
   [(server1xDN H, some ca1DN), (server1DN H, some ca1DN), (ca1DN, none)],
   clock, 3⟩

def state4 (H : String) (clock : Nat → Int) : Certs :=
  ⟨H,
   [("ca1.key", [Token.keyPem ca1DN]),
    ("ca1.crt", [Token.certPem (ca1Cert clock)]),
    ("server1.key", [Token.keyPem (server1DN H)]),
    ("server1.crt", [Token.certPem (server1Cert H clock), Token.certPem (ca1Cert clock)]),
    ("server1x.key", [Token.keyPem (server1xDN H)]),
    ("server1x.crt", [Token.certPem (server1xCert H clock), Token.certPem (ca1Cert clock)]),
    ("ca2.key", [Token.keyPem ca2DN]),
    ("ca2.crt", [Token.certPem (ca2Cert clock)])],
   false,
   [(ca2DN, ca2DN), (server1xDN H, server1xDN H), (server1DN H, server1DN H),
    (ca1DN, ca1DN)],
   [(ca2DN, ca2Cert clock), (server1xDN H, server1xCert H clock),
    (server1DN H, server1Cert H clock), (ca1DN, ca1Cert clock)],
   [(ca2DN, none), (server1xDN H, some ca1DN), (server1DN H, some ca1DN), (ca1DN, none)],
   clock, 4⟩

def state5 (H : String) (clock : Nat → Int) : Certs :=
  ⟨H,
   [("ca1.key", [Token.keyPem ca1DN]),
    ("ca1.crt", [Token.certPem (ca1Cert clock)]),
    ("server1.key", [Token.keyPem (server1DN H)]),
    ("server1.crt", [Token.certPem (server1Cert H clock), Token.certPem (ca1Cert clock)]),
    ("server1x.key", [Token.keyPem (server1xDN H)]),
    ("server1x.crt", [Token.certPem (server1xCert H clock), Token.certPem (ca1Cert clock)]),
    ("ca2.key", [Token.keyPem ca2DN]),
    ("ca2.crt", [Token.certPem (ca2Cert clock)]),
    ("server2.key", [Token.keyPem (server2DN H)]),
    ("server2.crt", [Token.certPem (server2Cert H clock), Token.certPem (ca2Cert clock)])],
   false,
   [(server2DN H, server2DN H), (ca2DN, ca2DN), (server1xDN H, server1xDN H),
    (server1DN H, server1DN H), (ca1DN, ca1DN)],
   [(server2DN H, server2Cert H clock), (ca2DN, ca2Cert clock),
    (server1xDN H, server1xCert H clock), (server1DN H, server1Cert H clock),
    (ca1DN, ca1Cert clock)],
   [(server2DN H, some ca2DN), (ca2DN, none), (server1xDN H, some ca1DN),
    (server1DN H, some ca1DN), (ca1DN, none)],
   clock, 5⟩

def state6 (H : String) (clock : Nat → Int) : Certs :=
  ⟨H,
   [("ca1.key", [Token.keyPem ca1DN]),
    ("ca1.crt", [Token.certPem (ca1Cert clock)]),
    ("server1.key", [Token.keyPem (server1DN H)]),
    ("server1.crt", [Token.certPem (server1Cert H clock), Token.certPem (ca1Cert clock)]),
    ("server1x.key", [Token.keyPem (server1xDN H)]),
    ("server1x.crt", [Token.certPem (server1xCert H clock), Token.certPem (ca1Cert clock)]),
    ("ca2.key", [Token.keyPem ca2DN]),
    ("ca2.crt", [Token.certPem (ca2Cert clock)]),
    ("server2.key", [Token.keyPem (server2DN H)]),
    ("server2.crt", [Token.certPem (server2Cert H clock), Token.certPem (ca2Cert clock)]),
    ("client2.key", [Token.keyPem (client2DN H)]),
    ("client2.crt", [Token.certPem (client2Cert H clock), Token.certPem (ca2Cert clock)]),
    ("client2.keycrt",
     [Token.keyPem (client2DN H), Token.certPem (client2Cert H clock),
      Token.certPem (ca2Cert clock)])],
   false,
   [(client2DN H, client2DN H), (server2DN H, server2DN H), (ca2DN, ca2DN),
    (server1xDN H, server1xDN H), (server1DN H, server1DN H), (ca1DN, ca1DN)],
   [(client2DN H, client2Cert H clock), (server2DN H, server2Cert H clock),
    (ca2DN, ca2Cert clock), (server1xDN H, server1xCert H clock),
    (server1DN H, server1Cert H clock), (ca1DN, ca1Cert clock)],
   [(client2DN H, some ca2DN), (server2DN H, some ca2DN), (ca2DN, none),
    (server1xDN H, some ca1DN), (server1DN H, some ca1DN), (ca1DN, none)],
   clock, 6⟩

def state7 (H : String) (clock : Nat → Int) : Certs :=
  ⟨H,
   [("ca1.key", [Token.keyPem ca1DN]),
    ("ca1.crt", [Token.certPem (ca1Cert clock)]),
    ("server1.key", [Token.keyPem (server1DN H)]),
    ("server1.crt", [Token.certPem (server1Cert H clock), Token.certPem (ca1Cert clock)]),
    ("server1x.key", [Token.keyPem (server1xDN H)]),
    ("server1x.crt", [Token.certPem (server1xCert H clock), Token.certPem (ca1Cert clock)]),
    ("ca2.key", [Token.keyPem ca2DN]),
    ("ca2.crt", [Token.certPem (ca2Cert clock)]),
    ("server2.key", [Token.keyPem (server2DN H)]),
    ("server2.crt", [Token.certPem (server2Cert H clock), Token.certPem (ca2Cert clock)]),
    ("client2.key", [Token.keyPem (client2DN H)]),
    ("client2.crt", [Token.certPem (client2Cert H clock), Token.certPem (ca2Cert clock)]),
    ("client2.keycrt",
     [Token.keyPem (client2DN H), Token.certPem (client2Cert H clock),
      Token.certPem (ca2Cert clock)]),
    ("ca3.key", [Token.keyPem ca3DN]),
    ("ca3.crt", [Token.certPem (ca3Cert clock)])],
   false,
   [(ca3DN, ca3DN), (client2DN H, client2DN H), (server2DN H, server2DN H),
    (ca2DN, ca2DN), (server1xDN H, server1xDN H), (server1DN H, server1DN H),
    (ca1DN, ca1DN)],
   [(ca3DN, ca3Cert clock), (client2DN H, client2Cert H clock),
    (server2DN H, server2Cert H clock), (ca2DN, ca2Cert clock),
    (server1xDN H, server1xCert H clock), (server1DN H, server1Cert H clock),
    (ca1DN, ca1Cert clock)],
   [(ca3DN, none), (client2DN H, some ca2DN), (server2DN H, some ca2DN), (ca2DN, none),
    (server1xDN H, some ca1DN), (server1DN H, some ca1DN), (ca1DN, none)],
   clock, 7⟩

def state8 (H : String) (clock : Nat → Int) : Certs :=
  ⟨H,
   [("ca1.key", [Token.keyPem ca1DN]),
    ("ca1.crt", [Token.certPem (ca1Cert clock)]),
    ("server1.key", [Token.keyPem (server1DN H)]),
    ("server1.crt", [Token.certPem (server1Cert H clock), Token.certPem (ca1Cert clock)]),
    ("server1x.key", [Token.keyPem (server1xDN H)]),
    ("server1x.crt", [Token.certPem (server1xCert H clock), Token.certPem (ca1Cert clock)]),
    ("ca2.key", [Token.keyPem ca2DN]),
    ("ca2.crt", [Token.certPem (ca2Cert clock)]),
    ("server2.key", [Token.keyPem (server2DN H)]),
    ("server2.crt", [Token.certPem (server2Cert H clock), Token.certPem (ca2Cert clock)]),
    ("client2.key", [Token.keyPem (client2DN H)]),
    ("client2.crt", [Token.certPem (client2Cert H clock), Token.certPem (ca2Cert clock)]),
    ("client2.keycrt",
     [Token.keyPem (client2DN H), Token.certPem (client2Cert H clock),
      Token.certPem (ca2Cert clock)]),
    ("ca3.key", [Token.keyPem ca3DN]),
    ("ca3.crt", [Token.certPem (ca3Cert clock)]),
    ("server3.key", [Token.keyPem (server3DN H)]),
    ("server3.crt", [Token.certPem (server3Cert H clock), Token.certPem (ca3Cert clock)])],
   false,
   [(server3DN H, server3DN H), (ca3DN, ca3DN), (client2DN H, client2DN H),
    (server2DN H, server2DN H), (ca2DN, ca2DN), (server1xDN H, server1xDN H),
    (server1DN H, server1DN H), (ca1DN, ca1DN)],
   [(server3DN H, server3Cert H clock), (ca3DN, ca3Cert clock),
    (client2DN H, client2Cert H clock), (server2DN H, server2Cert H clock),
    (ca2DN, ca2Cert clock), (server1xDN H, server1xCert H clock),
    (server1DN H, server1Cert H clock), (ca1DN, ca1Cert clock)],
   [(server3DN H, some ca3DN), (ca3DN, none), (client2DN H, some ca2DN),
    (server2DN H, some ca2DN), (ca2DN, none), (server1xDN H, some ca1DN),
    (server1DN H, some ca1DN), (ca1DN, none)],
   clock, 8⟩

/-- The generated subjects of a run: artifact base name and subject DN. -/
def subjectTable (H : String) : List (String × DN) :=
  [("ca1", ca1DN), ("server1", server1DN H), ("server1x", server1xDN H),
   ("ca2", ca2DN), ("server2", server2DN H), ("client2", client2DN H),
   ("ca3", ca3DN), ("server3", server3DN H)]

/-! ## Receiver lemmas -/

/-- A `StepRes.more` continuation strictly shrinks the input. -/
theorem recvStep_more_length {input rest : List Nat}
    (h : recvStep input = StepRes.more rest) : rest.length < input.length := by
  match input with
  | [] => simp [recvStep] at h
  | [b] => simp [recvStep] at h
  | b0 :: b1 :: r =>
    simp only [recvStep] at h
    split at h
    · split at h
      · exact absurd h (by simp)
      · split at h
        · exact absurd h (by simp)
        · cases h
          simp only [List.length_drop, List.length_cons]
          omega
    · split at h
      · exact absurd h (by simp)
      · cases h
        simp only [List.length_cons]
        omega

/-- The fuel in `recv_message` is immaterial: any two sufficient fuels
agree, so the fuelled loop coincides with the unbounded source loop. -/
theorem recvLoop_congr : ∀ (f1 f2 : Nat) (input : List Nat),
    input.length < f1 → input.length < f2 → recvLoop f1 input = recvLoop f2 input := by
  intro f1
  induction f1 with
  | zero => intro f2 input h1 _; omega
  | succ f ih =>
    intro f2 input h1 h2
    match f2, h2 with
    | f2 + 1, h2 =>
      show recvLoop (f + 1) input = recvLoop (f2 + 1) input
      simp only [recvLoop]
      cases h : recvStep input with
      | fail => rfl
      | done => rfl
      | more rest =>
        have hlt := recvStep_more_length h
        exact ih f2 rest (by omega) (by omega)

/-- `recvStep` reports a finished message exactly on a chunk whose last
flag is set and whose body (empty when the decoded size is nonpositive)
is fully present. -/
theorem recvStep_done_iff (b0 b1 : Nat) (rest : List Nat) :
    recvStep (b0 :: b1 :: rest) = StepRes.done ↔
      int16ofLE b0 b1 % 2 = 1 ∧ (Int.fdiv (int16ofLE b0 b1) 2).toNat ≤ rest.length := by
  simp only [recvStep, List.length_take]
  split_ifs with h1 h2 h3 h4 <;> simp <;> omega

/-- `recvStep` continues exactly on a fully present chunk whose last flag
is clear, consuming the decoded body size. -/
theorem recvStep_more_iff (b0 b1 : Nat) (rest r : List Nat) :
    recvStep (b0 :: b1 :: rest) = StepRes.more r ↔
      ¬ int16ofLE b0 b1 % 2 = 1 ∧ (Int.fdiv (int16ofLE b0 b1) 2).toNat ≤ rest.length ∧
        r = rest.drop (Int.fdiv (int16ofLE b0 b1) 2).toNat := by
  simp only [recvStep, List.length_take]
  split_ifs with h1 h2 h3 h4
  · simp
    omega
  · simp
    omega
  · constructor
    · intro h
      cases h
      refine ⟨h3, by omega, rfl⟩
    · rintro ⟨_, _, rfl⟩
      rfl
  · have ht : (Int.fdiv (int16ofLE b0 b1) 2).toNat = 0 := by omega
    rw [ht]
    simp
    omega
  · have ht : (Int.fdiv (int16ofLE b0 b1) 2).toNat = 0 := by omega
    rw [ht]
    simp only [List.drop_zero]
    constructor
    · intro h
      cases h
      exact ⟨h4, by omega, rfl⟩
    · rintro ⟨_, _, rfl⟩
      rfl

/-- The fuelled loop, with sufficient fuel, reports `true` exactly when
the input begins with a complete framed message. -/
theorem recvLoop_true_iff : ∀ (fuel : Nat) (input : List Nat), input.length < fuel →
    (recvLoop fuel input = true ↔ MsgComplete input) := by
  intro fuel
  induction fuel with
  | zero => intro input h; omega
  | succ f ih =>
    intro input h
    simp only [recvLoop]
    match input with
    | [] =>
      constructor
      · intro hh; exact absurd hh (by simp [recvStep])
      · intro hc; cases hc
    | [b] =>
      constructor
      · intro hh; exact absurd hh (by simp [recvStep])
      · intro hc; cases hc
    | b0 :: b1 :: rest =>
      cases hs : recvStep (b0 :: b1 :: rest) with
      | fail =>
        constructor
        · intro hh; exact absurd hh (by simp)
        · intro hc
          cases hc with
          | lastChunk _ _ _ hlast hsize =>
            rw [(recvStep_done_iff b0 b1 rest).mpr ⟨hlast, hsize⟩] at hs
            cases hs
          | moreChunk _ _ _ hlast hsize _ =>
            rw [(recvStep_more_iff b0 b1 rest _).mpr ⟨hlast, hsize, rfl⟩] at hs
            cases hs
      | done =>
        have hd := (recvStep_done_iff b0 b1 rest).mp hs
        simp only [true_iff]
        exact MsgComplete.lastChunk b0 b1 rest hd.1 hd.2
      | more r =>
        obtain ⟨hl, hsz, hr⟩ := (recvStep_more_iff b0 b1 rest r).mp hs
        have hlen : r.length < f := by
          have hlt := recvStep_more_length hs
          simp only [List.length_cons] at hlt h ⊢
          omega
        rw [ih r hlen]
        constructor
        · intro hm
          rw [hr] at hm
          exact MsgComplete.moreChunk b0 b1 rest hl hsz hm
        · intro hm
          cases hm with
          | lastChunk _ _ _ hlast _ => exact absurd hlast hl
          | moreChunk _ _ _ _ _ htail => rw [hr]; exact htail

/-- `recv_message` reports `true` exactly when the received byte stream
begins with a complete framed message. -/
theorem recv_message_iff_msgComplete (input : List Nat) :
    recv_message input = true ↔ MsgComplete input :=
  recvLoop_true_iff (input.length + 1) input (by omega)

/-! ## Claim C4: chunk-header arithmetic of the receiver -/

/-- Value of the decoded header when it fits in 15 bits. -/
theorem int16ofLE_small {b0 b1 : Nat} (h : b0 + 256 * b1 < 32768) :
    int16ofLE b0 b1 = ((b0 + 256 * b1 : Nat) : Int) := by
  unfold int16ofLE
  rw [if_pos h]

/-- Value of the decoded header when the sign bit is set: the unsigned
value minus 2^16. -/
theorem int16ofLE_big {b0 b1 : Nat} (h : 32768 ≤ b0 + 256 * b1) :
    int16ofLE b0 b1 = ((b0 + 256 * b1 : Nat) : Int) - 65536 := by
  unfold int16ofLE
  rw [if_neg (by omega)]

/-- `Int.fdiv` by the positive constant 2 is euclidean division, which
`omega` understands. -/
theorem fdiv_two_eq (a : Int) : Int.fdiv a 2 = a / 2 :=
  Int.fdiv_eq_ediv a (by decide)

/-- Claim C4 is false of the source: `recv_message` decodes the header as
a *signed* 16-bit value.  On the stream `[0x00, 0x80, 0x01, 0x00]` the
first header is `0x8000`; the claim's unsigned reading demands a
16384-byte body (absent, so the message is incomplete), while the code
computes a negative size, reads no body, and accepts the following
zero-size last chunk. -/
theorem c4_counterexample :
    ¬ (recv_message [0, 128, 1, 0] = recvMessageSpec [0, 128, 1, 0]) := by
  decide

/-- Claim C4 amended: the receiver decodes the header `H = b0 + 256*b1`
as a signed 16-bit value.  For `H < 0x8000` it behaves as the claim says:
the body size is `H >>> 1` and exactly that many body bytes are consumed.
For `H ≥ 0x8000` the signed value is negative, the computed size is
nonpositive, and no body bytes are read for that chunk. -/
theorem c4_amended (b0 b1 : Nat) (rest : List Nat) (hb0 : b0 < 256) (hb1 : b1 < 256) :
    (b0 + 256 * b1 < 32768 → (b0 + 256 * b1) >>> 1 ≤ rest.length →
      recvStep (b0 :: b1 :: rest) =
        (if (b0 + 256 * b1) % 2 = 1 then StepRes.done
         else StepRes.more (rest.drop ((b0 + 256 * b1) >>> 1)))) ∧
    (32768 ≤ b0 + 256 * b1 →
      recvStep (b0 :: b1 :: rest) =
        (if (b0 + 256 * b1) % 2 = 1 then StepRes.done else StepRes.more rest)) := by
  constructor
  · intro hH hlen
    rw [Nat.shiftRight_eq_div_pow, pow_one] at hlen
    have htn : (Int.fdiv (int16ofLE b0 b1) 2).toNat = (b0 + 256 * b1) >>> 1 := by
      rw [int16ofLE_small hH, fdiv_two_eq, Nat.shiftRight_eq_div_pow, pow_one]
      omega
    have hm : int16ofLE b0 b1 % 2 = 1 ↔ (b0 + 256 * b1) % 2 = 1 := by
      rw [int16ofLE_small hH]
      omega
    by_cases hodd : (b0 + 256 * b1) % 2 = 1
    · rw [if_pos hodd]
      refine (recvStep_done_iff b0 b1 rest).mpr ⟨hm.mpr hodd, ?_⟩
      rw [htn, Nat.shiftRight_eq_div_pow, pow_one]
      omega
    · rw [if_neg hodd]
      refine (recvStep_more_iff b0 b1 rest _).mpr ⟨fun hc => hodd (hm.mp hc), ?_, ?_⟩
      · rw [htn, Nat.shiftRight_eq_div_pow, pow_one]
        omega
      · rw [htn]
  · intro hH
    have htn : (Int.fdiv (int16ofLE b0 b1) 2).toNat = 0 := by
      rw [int16ofLE_big hH, fdiv_two_eq]
      omega
    have hm : int16ofLE b0 b1 % 2 = 1 ↔ (b0 + 256 * b1) % 2 = 1 := by
      rw [int16ofLE_big hH]
      omega
    by_cases hodd : (b0 + 256 * b1) % 2 = 1
    · rw [if_pos hodd]
      exact (recvStep_done_iff b0 b1 rest).mpr ⟨hm.mpr hodd, by omega⟩
    · rw [if_neg hodd]
      refine (recvStep_more_iff b0 b1 rest rest).mpr
        ⟨fun hc => hodd (hm.mp hc), by omega, ?_⟩
      rw [htn, List.drop_zero]

/-- Witness for `c4_amended`: a complete small chunk with the last flag
(`H = 5`, two body bytes) finishes the message, and a sign-bit header
(`H = 0x8000`) consumes no body bytes. -/
theorem c4_amended_witness :
    recvStep [5, 0, 9, 9] = StepRes.done ∧ recvStep [0, 128] = StepRes.more [] := by
  constructor
  · have h := (c4_amended 5 0 [9, 9] (by decide) (by decide)).1 (by decide) (by decide)
    simpa using h
  · have h := (c4_amended 0 128 [] (by decide) (by decide)).2 (by decide)
    simpa using h

/-! ## Claim C5: the last flag is authoritative, also on empty chunks -/

/-- Claim C5: `recv_message` reports a complete message exactly when the
stream begins with a chunk sequence terminated by a last-flagged chunk,
and in particular a zero-length last chunk (header value 1) terminates
the message no matter what follows: the last flag is checked outside the
`size > 0` guard. -/
theorem c5_last_flag_authoritative :
    (∀ input : List Nat, recv_message input = true ↔ MsgComplete input) ∧
    (∀ rest : List Nat, recv_message (1 :: 0 :: rest) = true) := by
  refine ⟨recv_message_iff_msgComplete, fun rest => ?_⟩
  refine (recv_message_iff_msgComplete _).mpr
    (MsgComplete.lastChunk 1 0 rest (by decide) ?_)
  have h : (Int.fdiv (int16ofLE 1 0) 2).toNat = 0 := by decide
  rw [h]
  exact Nat.zero_le _

/-! ## Claim C6: the sender emits a single last-flagged chunk -/

/-- Claim C6 is false of the source for messages of 16384 bytes or more:
`struct.pack("<h", 2*n+1)` overflows the signed 16-bit range and raises
`struct.error`, so nothing is emitted at all. -/
theorem c6_counterexample :
    ¬ (send_message (List.replicate 16384 0) =
        some (((2 * 16384 + 1) % 256) :: ((2 * 16384 + 1) / 256 % 256) ::
          List.replicate 16384 0)) := by
  have hlen : (List.replicate 16384 (0 : Nat)).length = 16384 :=
    List.length_replicate 16384 0
  have hn : send_message (List.replicate 16384 0) = none := by
    unfold send_message structPackShortLE
    rw [hlen, if_pos (by omega)]
  rw [hn]
  exact fun h => Option.noConfusion h

/-- Claim C6 amended: for every message shorter than 16384 bytes the
sender emits exactly one chunk, a 2-byte little-endian header holding
`2*N + 1` followed by the `N` message bytes; for longer messages the
signed 16-bit pack fails and nothing is sent. -/
theorem c6_amended (msg : List Nat) (h : msg.length < 16384) :
    send_message msg =
      some (((2 * msg.length + 1) % 256) :: ((2 * msg.length + 1) / 256 % 256) :: msg) := by
  have hv : ¬ ((2 * (msg.length : Int) + 1) < -32768 ∨ 32767 < 2 * (msg.length : Int) + 1) := by
    omega
  simp only [send_message, structPackShortLE, if_neg hv]
  simp only [List.cons_append, List.nil_append, Option.some.injEq, List.cons.injEq]
  exact ⟨by omega, by omega, trivial⟩

/-- Witness for `c6_amended` at a concrete two-byte message. -/
theorem c6_amended_witness :
    ([10, 20] : List Nat).length < 16384 ∧
      send_message [10, 20] =
        some (((2 * ([10, 20] : List Nat).length + 1) % 256) ::
          ((2 * ([10, 20] : List Nat).length + 1) / 256 % 256) :: [10, 20]) :=
  ⟨by decide, c6_amended [10, 20] (by decide)⟩

/-! ## Claims C9 and C10: the per-connection exchange -/

theorem send_message_CHALLENGE : send_message CHALLENGE = some challengeFrame := by
  decide

theorem send_message_ERRORMESSAGE : send_message ERRORMESSAGE = some errorFrame := by
  decide

/-- Claim C9 is false of the source: on the `plain` endpoint the first
frame sent is not `0x03 0x00` followed by 149 bytes — the challenge is 82
bytes long and its frame header is `0xA5 0x00`. -/
theorem c9_counterexample :
    ¬ ∃ blob : List Nat, blob.length = 149 ∧
        (handle none true []).head? = some (3 :: 0 :: blob) := by
  rintro ⟨blob, hlen, hhead⟩
  have h1 : handle none true [] = [challengeFrame] := by decide
  rw [h1] at hhead
  simp only [List.head?_cons, Option.some.injEq, challengeFrame, List.cons.injEq] at hhead
  omega

/-- Claim C9 amended: the `plain` endpoint is registered with no TLS
context, so no handshake is attempted, and the first bytes sent on every
accepted connection are the 2-byte header `0xA5 0x00` followed by the 82
bytes of the fixed challenge blob. -/
theorem c9_amended (certs : Certs) (base_port : Nat) (sequential : Bool)
    (osAssign : Nat → Nat) (hsOk : Bool) (input : List Nat) :
    lookupCtx (serverInit certs base_port sequential osAssign).endpoints "plain" =
      some none ∧
    handshakeAttempted none = false ∧
    (handle none hsOk input).head? = some (165 :: 0 :: CHALLENGE) ∧
    CHALLENGE.length = 82 := by
  refine ⟨?_, rfl, ?_, by decide⟩
  · simp [serverInit, spawn_mapi, spawn_http, bindPort, lookupCtx]
  · unfold handle exchange
    rw [send_message_CHALLENGE]
    simp [challengeFrame]

/-- Claim C10: once the handshake phase has succeeded (trivially for
`plain`, a successful `wrap_socket` otherwise), the fixed error blob is
sent if and only if the peer's stream began with a complete framed
message; on EOF or truncation before a last-flagged chunk the connection
sends only the challenge. -/
theorem c10_error_iff_complete (ctx : Option SSLCtx) (hsOk : Bool) (input : List Nat)
    (h : ctx = none ∨ hsOk = true) :
    (handle ctx hsOk input = [challengeFrame, errorFrame] ∧ MsgComplete input) ∨
    (handle ctx hsOk input = [challengeFrame] ∧ ¬ MsgComplete input) := by
  have hex : handle ctx hsOk input = exchange input := by
    cases ctx with
    | none => rfl
    | some c =>
      rcases h with h | h
      · exact absurd h (by simp)
      · simp [handle, h]
  rw [hex]
  unfold exchange
  rw [send_message_CHALLENGE]
  by_cases hm : MsgComplete input
  · left
    have hr : recv_message input = true := (recv_message_iff_msgComplete input).mpr hm
    rw [hr]
    rw [send_message_ERRORMESSAGE]
    exact ⟨rfl, hm⟩
  · right
    have hr : recv_message input = false := by
      rcases Bool.eq_false_or_eq_true (recv_message input) with h | h
      · exact absurd ((recv_message_iff_msgComplete input).mp h) hm
      · exact h
    rw [hr]
    exact ⟨rfl, hm⟩

/-- Witness for `c10_error_iff_complete`: a plain connection whose peer
sends a single zero-length last chunk. -/
theorem c10_witness :
    ((none : Option SSLCtx) = none ∨ false = true) ∧
    ((handle none false [1, 0] = [challengeFrame, errorFrame] ∧ MsgComplete [1, 0]) ∨
     (handle none false [1, 0] = [challengeFrame] ∧ ¬ MsgComplete [1, 0])) :=
  ⟨Or.inl rfl, c10_error_iff_complete none false [1, 0] (Or.inl rfl)⟩

/-! ## Claim C3: the TLS context factory's version pinning -/

/-- Claim C3: with a version pin, both the minimum and the maximum
negotiated TLS version are set to the pinned value; with no pin
(`tls_version=None`), `tls_version or TLSVersion.TLSv1_3` makes the
minimum TLS 1.3 and the maximum keeps the fresh context's unrestricted
`MAXIMUM_SUPPORTED`. -/
theorem c3_version_pinning (certs : Certs) (cert_name : String)
    (client_cert : Option String) :
    (∀ v : TLSVersion,
      (ssl_context certs cert_name (some v) client_cert).minimumVersion = v ∧
      (ssl_context certs cert_name (some v) client_cert).maximumVersion = v) ∧
    ((ssl_context certs cert_name none client_cert).minimumVersion =
        TLSVersion.tlsv1_3 ∧
      (ssl_context certs cert_name none client_cert).maximumVersion =
        TLSVersion.maximumSupported) := by
  constructor
  · intro v
    have hv : v.truthy = true := by cases v <;> decide
    cases client_cert with
    | none =>
      simp [ssl_context, pyOrTLS, hv, newTLSServerContext]
    | some cc =>
      by_cases hcc : cc.isEmpty <;>
        simp [ssl_context, pyOrTLS, hv, hcc, newTLSServerContext]
  · cases client_cert with
    | none =>
      simp [ssl_context, pyOrTLS, newTLSServerContext]
    | some cc =>
      by_cases hcc : cc.isEmpty <;>
        simp [ssl_context, pyOrTLS, hcc, newTLSServerContext]

/-! ## Evaluating the generation run -/

theorem step1 (H : String) (clock : Nat → Int) :
    (state0 H clock).gen_ca "ca1" = (state1 H clock, caDN "ca1") := by
  simp [state0, state1, Certs.gen_ca, Certs.gen_key, Certs.insert_file, lookupFile,
    chainTokens, dnLookup, caDN, serverDN, SECONDS_PER_DAY, ca1DN, ca1Cert]

theorem step2 (H : String) (clock : Nat → Int) :
    (state1 H clock).gen_server "server1" (caDN "ca1") 0 14 false = state2 H clock := by
  simp [state1, state2, Certs.gen_server, Certs.gen_key, Certs.insert_file, lookupFile,
    chainTokens, dnLookup, caDN, serverDN, SECONDS_PER_DAY, ca1DN, ca1Cert,
    server1DN, server1Cert]

theorem step3 (H : String) (clock : Nat → Int) :
    (state2 H clock).gen_server "server1x" (caDN "ca1") (-15) (-1) false = state3 H clock := by
  simp [state2, state3, Certs.gen_server, Certs.gen_key, Certs.insert_file, lookupFile,
    chainTokens, dnLookup, caDN, serverDN, SECONDS_PER_DAY, ca1DN, ca1Cert,
    server1DN, server1Cert, server1xDN, server1xCert]

theorem step4 (H : String) (clock : Nat → Int) :
    (state3 H clock).gen_ca "ca2" = (state4 H clock, caDN "ca2") := by
  simp [state3, state4, Certs.gen_ca, Certs.gen_key, Certs.insert_file, lookupFile,
    chainTokens, dnLookup, caDN, serverDN, SECONDS_PER_DAY, ca1DN, ca1Cert,
    server1DN, server1Cert, server1xDN, server1xCert, ca2DN, ca2Cert]

theorem step5 (H : String) (clock : Nat → Int) :
    (state4 H clock).gen_server "server2" (caDN "ca2") 0 14 false = state5 H clock := by
  simp [state4, state5, Certs.gen_server, Certs.gen_key, Certs.insert_file, lookupFile,
    chainTokens, dnLookup, caDN, serverDN, SECONDS_PER_DAY, ca1DN, ca1Cert,
    server1DN, server1Cert, server1xDN, server1xCert, ca2DN, ca2Cert,
    server2DN, server2Cert]

theorem step6 (H : String) (clock : Nat → Int) :
    (state5 H clock).gen_server "client2" (caDN "ca2") 0 14 true = state6 H clock := by
  simp [state5, state6, Certs.gen_server, Certs.gen_key, Certs.insert_file, lookupFile,
    chainTokens, dnLookup, caDN, serverDN, SECONDS_PER_DAY, ca1DN, ca1Cert,
    server1DN, server1Cert, server1xDN, server1xCert, ca2DN, ca2Cert,
    server2DN, server2Cert, client2DN, client2Cert]

theorem step7 (H : String) (clock : Nat → Int) :
    (state6 H clock).gen_ca "ca3" = (state7 H clock, caDN "ca3") := by
  simp [state6, state7, Certs.gen_ca, Certs.gen_key, Certs.insert_file, lookupFile,
    chainTokens, dnLookup, caDN, serverDN, SECONDS_PER_DAY, ca1DN, ca1Cert,
    server1DN, server1Cert, server1xDN, server1xCert, ca2DN, ca2Cert,
    server2DN, server2Cert, client2DN, client2Cert, ca3DN, ca3Cert]

theorem step8 (H : String) (clock : Nat → Int) :
    (state7 H clock).gen_server "server3" (caDN "ca3") 0 14 false = state8 H clock := by
  simp [state7, state8, Certs.gen_server, Certs.gen_key, Certs.insert_file, lookupFile,
    chainTokens, dnLookup, caDN, serverDN, SECONDS_PER_DAY, ca1DN, ca1Cert,
    server1DN, server1Cert, server1xDN, server1xCert, ca2DN, ca2Cert,
    server2DN, server2Cert, client2DN, client2Cert, ca3DN, ca3Cert,
    server3DN, server3Cert]

/-- The full generation run, evaluated. -/
theorem initCerts_eq (H : String) (clock : Nat → Int) :
    initCerts H clock = state8 H clock := by
  show Certs.gen_keys (state0 H clock) = state8 H clock
  simp only [Certs.gen_keys, step1, step2, step3, step4, step5, step6, step7, step8]

/-! ## Claims C1, C2, C7: properties of the generated PKI -/

/-- Claim C1: for every generated subject, the chain published in
`S.crt` is a nonempty certificate list that starts with S's own
certificate, ends with a self-signed CA certificate (self-issued, signed
with its own key, carrying the critical CA basic constraint), and links
each certificate's issuer to the next certificate's subject. -/
theorem c1_chain_invariant (H : String) (clock : Nat → Int) :
    ∀ p ∈ subjectTable H, ∃ c : Cert, ∃ cs : List Cert, ∃ lastc : Cert,
      (initCerts H clock).get_file (p.1 ++ ".crt") = some ((c :: cs).map Token.certPem) ∧
      c.subject = p.2 ∧
      (c :: cs).getLast? = some lastc ∧
      lastc.issuer = lastc.subject ∧
      lastc.signedWithKeyOf = some lastc.subject ∧
      Extension.basicConstraints true 1 ∈ lastc.criticalExtensions ∧
      List.Chain' (fun a b => a.issuer = b.subject) (c :: cs) := by
  intro p hp
  rw [initCerts_eq]
  simp only [subjectTable, List.mem_cons, List.not_mem_nil, or_false] at hp
  rcases hp with rfl | rfl | rfl | rfl | rfl | rfl | rfl | rfl
  · exact ⟨ca1Cert clock, [], ca1Cert clock,
      by simp [state8, Certs.get_file, lookupFile], rfl, rfl, rfl, rfl,
      by simp [ca1Cert], by simp⟩
  · exact ⟨server1Cert H clock, [ca1Cert clock], ca1Cert clock,
      by simp [state8, Certs.get_file, lookupFile], rfl, rfl, rfl, rfl,
      by simp [ca1Cert],
      by simp [server1Cert, ca1Cert]⟩
  · exact ⟨server1xCert H clock, [ca1Cert clock], ca1Cert clock,
      by simp [state8, Certs.get_file, lookupFile], rfl, rfl, rfl, rfl,
      by simp [ca1Cert],
      by simp [server1xCert, ca1Cert]⟩
  · exact ⟨ca2Cert clock, [], ca2Cert clock,
      by simp [state8, Certs.get_file, lookupFile], rfl, rfl, rfl, rfl,
      by simp [ca2Cert], by simp⟩
  · exact ⟨server2Cert H clock, [ca2Cert clock], ca2Cert clock,
      by simp [state8, Certs.get_file, lookupFile], rfl, rfl, rfl, rfl,
      by simp [ca2Cert],
      by simp [server2Cert, ca2Cert]⟩
  · exact ⟨client2Cert H clock, [ca2Cert clock], ca2Cert clock,
      by simp [state8, Certs.get_file, lookupFile], rfl, rfl, rfl, rfl,
      by simp [ca2Cert],
      by simp [client2Cert, ca2Cert]⟩
  · exact ⟨ca3Cert clock, [], ca3Cert clock,
      by simp [state8, Certs.get_file, lookupFile], rfl, rfl, rfl, rfl,
      by simp [ca3Cert], by simp⟩
  · exact ⟨server3Cert H clock, [ca3Cert clock], ca3Cert clock,
      by simp [state8, Certs.get_file, lookupFile], rfl, rfl, rfl, rfl,
      by simp [ca3Cert],
      by simp [server3Cert, ca3Cert]⟩

/-- Witness for `c1_chain_invariant`: the `server1` subject at a concrete
hostname and clock. -/
theorem c1_witness :
    ("server1", server1DN "h") ∈ subjectTable "h" ∧
    (∃ c : Cert, ∃ cs : List Cert, ∃ lastc : Cert,
      (initCerts "h" (fun _ => (0 : Int))).get_file
          (("server1", server1DN "h").1 ++ ".crt") =
        some ((c :: cs).map Token.certPem) ∧
      c.subject = ("server1", server1DN "h").2 ∧
      (c :: cs).getLast? = some lastc ∧
      lastc.issuer = lastc.subject ∧
      lastc.signedWithKeyOf = some lastc.subject ∧
      Extension.basicConstraints true 1 ∈ lastc.criticalExtensions ∧
      List.Chain' (fun a b => a.issuer = b.subject) (c :: cs)) :=
  ⟨by decide,
   c1_chain_invariant "h" (fun _ => (0 : Int)) ("server1", server1DN "h") (by decide)⟩

/-- Claim C2 fails on the code: `gen_key` calls `datetime.utcnow()` once
per certificate, not once per run.  In a run whose clock advances by one
unit between calls (`clock i = i`), both `ca1` and `server1` declare a
notBefore offset of 0 days, yet no single reference instant `now`
satisfies both certificates' `notBefore = now + 0 days`. -/
theorem c2_per_certificate_clock :
    ¬ ∃ now : Int,
      (dnLookup (initCerts "h" (fun i => (i : Int))).certs ca1DN).map Cert.notBefore =
        some (now + 0 * SECONDS_PER_DAY) ∧
      (dnLookup (initCerts "h" (fun i => (i : Int))).certs (server1DN "h")).map
          Cert.notBefore =
        some (now + 0 * SECONDS_PER_DAY) := by
  rw [initCerts_eq]
  rintro ⟨now, h1, h2⟩
  have e1 : dnLookup (state8 "h" (fun i => (i : Int))).certs ca1DN =
      some (ca1Cert (fun i => (i : Int))) := by decide
  have e2 : dnLookup (state8 "h" (fun i => (i : Int))).certs (server1DN "h") =
      some (server1Cert "h" (fun i => (i : Int))) := by decide
  rw [e1] at h1
  rw [e2] at h2
  simp [ca1Cert, server1Cert, SECONDS_PER_DAY] at h1 h2
  omega

/-- Claim C7: the artifact store after generation has globally unique
names, contains `server1x.crt`, `server1.crt`, `server2.crt`,
`server3.crt` and `client2.keycrt`, produces `client2.keycrt` as the only
`.keycrt` artifact, and `client2.keycrt` is exactly `client2.key`
followed by `client2.crt` with no separator. -/
theorem c7_artifact_store (H : String) (clock : Nat → Int) :
    (initCerts H clock).dup = false ∧
    ((initCerts H clock).files.map Prod.fst).Nodup ∧
    ((initCerts H clock).get_file "server1x.crt").isSome = true ∧
    ((initCerts H clock).get_file "server1.crt").isSome = true ∧
    ((initCerts H clock).get_file "server2.crt").isSome = true ∧
    ((initCerts H clock).get_file "server3.crt").isSome = true ∧
    ((initCerts H clock).get_file "client2.keycrt").isSome = true ∧
    ((initCerts H clock).files.map Prod.fst).filter
        (fun n => List.isSuffixOf ".keycrt".data n.data) =
      ["client2.keycrt"] ∧
    (initCerts H clock).get_file "client2.keycrt" =
      some (((initCerts H clock).get_file "client2.key").getD [] ++
        ((initCerts H clock).get_file "client2.crt").getD []) := by
  rw [initCerts_eq]
  refine ⟨rfl, ?_, rfl, rfl, rfl, rfl, rfl, ?_, rfl⟩
  · show ((state8 H clock).files.map Prod.fst).Nodup
    have hn : (state8 H clock).files.map Prod.fst =
        ["ca1.key", "ca1.crt", "server1.key", "server1.crt", "server1x.key",
         "server1x.crt", "ca2.key", "ca2.crt", "server2.key", "server2.crt",
         "client2.key", "client2.crt", "client2.keycrt", "ca3.key", "ca3.crt",
         "server3.key", "server3.crt"] := rfl
    rw [hn]
    decide
  · show ((state8 H clock).files.map Prod.fst).filter
        (fun n => List.isSuffixOf ".keycrt".data n.data) =
      ["client2.keycrt"]
    have hn : (state8 H clock).files.map Prod.fst =
        ["ca1.key", "ca1.crt", "server1.key", "server1.crt", "server1x.key",
         "server1x.crt", "ca2.key", "ca2.crt", "server2.key", "server2.crt",
         "client2.key", "client2.crt", "client2.keycrt", "ca3.key", "ca3.crt",
         "server3.key", "server3.crt"] := rfl
    rw [hn]
    decide

/-! ## Claim C8: port allocation and the port map -/

theorem recorded_lt_accept_of_append (l1 l2 : List Ev)
    (h1 : ∀ e ∈ l1, isAcceptEv e = false) (h2 : ∀ e ∈ l2, isRecordedEv e = false) :
    ∀ (i j : Nat) (e1 e2 : Ev), (l1 ++ l2)[i]? = some e1 → isRecordedEv e1 = true →
      (l1 ++ l2)[j]? = some e2 → isAcceptEv e2 = true → i < j := by
  intro i j e1 e2 hi hr hj ha
  have hilt : i < l1.length := by
    by_contra hig
    push_neg at hig
    rw [List.getElem?_append_right hig] at hi
    have hm := List.getElem?_mem hi
    rw [h2 e1 hm] at hr
    cases hr
  have hjge : l1.length ≤ j := by
    by_contra hjg
    push_neg at hjg
    rw [List.getElem?_append_left hjg] at hj
    have hm := List.getElem?_mem hj
    rw [h1 e2 hm] at ha
    cases ha
  omega

theorem no_recorded_in_accepts (l : List String) :
    ∀ e ∈ l.map Ev.acceptStart, isRecordedEv e = false := by
  intro e he
  obtain ⟨a, _, rfl⟩ := List.mem_map.mp he
  rfl

/-- `spawn_mapi` only appends a port-map record to the trace. -/
theorem spawn_mapi_no_accept (osAssign : Nat → Nat) (st : ServerSt) (name : String)
    (ctx : Option SSLCtx) (h : ∀ e ∈ st.trace, isAcceptEv e = false) :
    ∀ e ∈ (spawn_mapi osAssign st name ctx).trace, isAcceptEv e = false := by
  intro e he
  simp only [spawn_mapi, bindPort] at he
  rcases List.mem_append.mp he with h1 | h2
  · exact h e h1
  · simp only [List.mem_singleton] at h2
    subst h2
    rfl

/-- Claim C8: in sequential mode the HTTP listener binds exactly
`base_port` and the seven MAPI listeners bind `base_port + 1` through
`base_port + 7` in declaration order; in either mode every endpoint's
bound port is recorded in the port map before any listener starts
accepting. -/
theorem c8_port_allocation (certs : Certs) (base_port : Nat) (osAssign : Nat → Nat)
    (h : 0 < base_port) :
    (serverInit certs base_port true osAssign).httpPort = base_port ∧
    (serverInit certs base_port true osAssign).portmap =
      [("plain", base_port + 1), ("server1", base_port + 2), ("server2", base_port + 3),
       ("server3", base_port + 4), ("expiredcert", base_port + 5),
       ("tls12", base_port + 6), ("clientauth", base_port + 7)] ∧
    ∀ sequential : Bool,
      recordedBeforeAccept (serverInit certs base_port sequential osAssign) := by
  have h0 : ¬ (base_port = 0) := by omega
  refine ⟨?_, ?_, ?_⟩
  · simp [serverInit, spawn_mapi, spawn_http, bindPort, h0]
  · simp [serverInit, spawn_mapi, spawn_http, bindPort, h0]
  · intro seq
    unfold recordedBeforeAccept
    intro i j e1 e2 hi hr hj ha
    simp only [serveTrace] at hi hj
    refine recorded_lt_accept_of_append _ _ ?_ (no_recorded_in_accepts _) i j e1 e2
      hi hr hj ha
    simp only [serverInit]
    apply spawn_mapi_no_accept
    apply spawn_mapi_no_accept
    apply spawn_mapi_no_accept
    apply spawn_mapi_no_accept
    apply spawn_mapi_no_accept
    apply spawn_mapi_no_accept
    apply spawn_mapi_no_accept
    intro e he
    simp only [spawn_http, bindPort] at he
    exact absurd he (List.not_mem_nil e)

/-- Witness for `c8_port_allocation` at base port 38000. -/
theorem c8_witness :
    0 < 38000 ∧
    ((serverInit (state0 "h" (fun _ => (0 : Int))) 38000 true (fun _ => 0)).httpPort =
        38000 ∧
      (serverInit (state0 "h" (fun _ => (0 : Int))) 38000 true (fun _ => 0)).portmap =
        [("plain", 38000 + 1), ("server1", 38000 + 2), ("server2", 38000 + 3),
         ("server3", 38000 + 4), ("expiredcert", 38000 + 5), ("tls12", 38000 + 6),
         ("clientauth", 38000 + 7)] ∧
      ∀ sequential : Bool,
        recordedBeforeAccept
          (serverInit (state0 "h" (fun _ => (0 : Int))) 38000 sequential (fun _ => 0))) :=
  ⟨by decide, c8_port_allocation (state0 "h" (fun _ => (0 : Int))) 38000 (fun _ => 0)
    (by decide)⟩

end TlsTester
